import Mathlib

/-!
Verification development for the attestation retrieval and verification
pipeline of the gh CLI: data model, attestation fetcher with pagination,
policy evaluator, verification orchestrator, bundle loader/writer,
download path, TUF root verification and inspect flag validation.
-/

namespace GhAttestation

/-- A content digest: `algorithm:hex`. -/
structure Digest where
  algorithm : String
  hex : String
deriving DecidableEq

/-- An opaque signed bundle envelope; `raw` is its JSON serialization. -/
structure Bundle where
  raw : List Char
deriving DecidableEq

/-- An attestation record as returned by the attestation store. -/
structure Attestation where
  bundle : Bundle
  bundleURL : Option String := none
deriving DecidableEq

/-! ## Attestation Fetcher

Modelled from the spec (the fetcher implementation is not under `src/`;
only its tests are): pagination with a caller-specified limit, a
documented default limit, truncation, and the distinguished
no-attestations error. -/

/-- The documented default result limit used when the caller leaves the
limit unset. -/
def DefaultLimit : Nat := 30

/-- Modelled from the spec: a limit of zero or unset uses the documented
default. -/
def effectiveLimit (limit : Nat) : Nat :=
  if limit = 0 then DefaultLimit else limit

/-- Modelled from the spec: the pagination loop. While the response
indicates a next page and the accumulated count has not reached the
limit, fetch the next page and append its records in server-received
order. -/
def paginateLoop (acc : List Attestation) (rest : List (List Attestation))
    (limit : Nat) : List Attestation :=
  match rest with
  | [] => acc
  | q :: rs => if acc.length < limit then paginateLoop (acc ++ q) rs limit else acc

/-- Modelled from the spec: issue the initial request, then run the
pagination loop over the remaining pages. -/
def paginate (pages : List (List Attestation)) (limit : Nat) : List Attestation :=
  match pages with
  | [] => []
  | p :: rest => paginateLoop p rest limit

/-- Errors of the fetch path: the distinguished no-attestations kind
versus a generic transport/server failure. -/
inductive FetchError where
  | noAttestations
  | transport (msg : String)
deriving DecidableEq

/-- Modelled from the spec: fetch the attestations bound to a digest.
The attestation store capability either fails (transport error) or
serves a sequence of pages. The accumulated list is truncated to the
effective limit; a fetch whose responses contain zero records overall
fails with the distinguished no-attestations error. -/
def getByDigest (store : Except String (List (List Attestation)))
    (limit : Nat) : Except FetchError (List Attestation) :=
  match store with
  | .error m => .error (.transport m)
  | .ok pages =>
    let acc := paginate pages (effectiveLimit limit)
    if acc.isEmpty then .error .noAttestations
    else .ok (acc.take (effectiveLimit limit))

/-- Drop leading and trailing slashes from a repo/owner identifier. -/
def trimSlashes (s : String) : String :=
  String.mk (((s.toList.dropWhile (fun c => c == '/')).reverse.dropWhile
    (fun c => c == '/')).reverse)

/-- Build the request path for a repo-scoped attestation fetch. -/
def BuildRepoAndDigestURL (repo digestWithAlg : String) : String :=
  "repos/" ++ trimSlashes repo ++ "/attestations/" ++ digestWithAlg

/-- Build the request path for an owner-scoped attestation fetch. -/
def BuildOwnerAndDigestURL (owner digestWithAlg : String) : String :=
  "orgs/" ++ trimSlashes owner ++ "/attestations/" ++ digestWithAlg

/-- Modelled from the spec: fetch attestations for a repository and
digest, through the attestation store capability keyed by request
path. -/
def GetByRepoAndDigest (store : String → Except String (List (List Attestation)))
    (repo digestWithAlg : String) (limit : Nat) : Except FetchError (List Attestation) :=
  getByDigest (store (BuildRepoAndDigestURL repo digestWithAlg)) limit

/-- Modelled from the spec: fetch attestations for an owner and digest,
through the attestation store capability keyed by request path. -/
def GetByOwnerAndDigest (store : String → Except String (List (List Attestation)))
    (owner digestWithAlg : String) (limit : Nat) : Except FetchError (List Attestation) :=
  getByDigest (store (BuildOwnerAndDigestURL owner digestWithAlg)) limit

/-- The total number of records the store would serve at a request path. -/
def totalAvailable (store : String → Except String (List (List Attestation)))
    (url : String) : Nat :=
  match store url with
  | .error _ => 0
  | .ok pages => pages.flatten.length

/-- The spec-side description of the fetch: a single unpaginated request
returning all records at once, truncated to the effective limit, with
the same zero-record failure. Stated from the spec sentence to be
compared with `getByDigest`. -/
def unpaginatedFetch (store : Except String (List (List Attestation)))
    (limit : Nat) : Except FetchError (List Attestation) :=
  match store with
  | .error m => .error (.transport m)
  | .ok pages =>
    let all := pages.flatten
    if all.isEmpty then .error .noAttestations
    else .ok (all.take (effectiveLimit limit))

/-! ## Policy Evaluator

Modelled from the spec (the evaluator implementation is not under
`src/`): conjunctive constraint checking over the extracted identity
claims, with a mandatory exact issuer match. -/

/-- Identity claims extracted from a verified bundle's certificate. -/
structure IdentityClaims where
  san : String
  issuer : String
  sourceRepositoryOwner : String
  sourceRepository : String
deriving DecidableEq

/-- The identity constraint set supplied by the caller. -/
structure PolicyConstraint where
  sanExact : Option String
  sanRegex : Option String
  owner : Option String
  repo : Option String
  oidcIssuer : String
deriving DecidableEq

/-- The distinguishable policy failure causes. -/
inductive PolicyError where
  | sanMismatch
  | sanRegexMismatch
  | ownerMismatch
  | repoMismatch
  | issuerMismatch
deriving DecidableEq

/-- Does `pat` occur as a contiguous subsequence of `s`? -/
def containsSeq (pat : List Char) (s : List Char) : Bool :=
  match s with
  | [] => pat.isPrefixOf []
  | _ :: rest => pat.isPrefixOf s || containsSeq pat rest

/-- Modelled from the spec: matching the compiled SAN pattern. A
caret-anchored literal pattern matches exactly the strings it starts; an
unanchored literal pattern matches anywhere in the string. -/
def matchesPattern (pat san : String) : Bool :=
  match pat.toList with
  | '^' :: rest => rest.isPrefixOf san.toList
  | l => containsSeq l san.toList

/-- Does the optional constraint flag a violation? An unset constraint
never fails; a set constraint fails when its value is bad. -/
def optionFails (o : Option String) (bad : String → Bool) : Bool :=
  match o with
  | none => false
  | some v => bad v

/-- Modelled from the spec: conjunctive policy check; the first failing
constraint determines the reported error, and the issuer must always
match exactly. -/
def Check (claims : IdentityClaims) (c : PolicyConstraint) : Option PolicyError :=
  if optionFails c.sanExact (fun s => s != claims.san) then some .sanMismatch
  else if optionFails c.sanRegex (fun p => ! matchesPattern p claims.san) then
    some .sanRegexMismatch
  else if optionFails c.owner (fun o => o != claims.sourceRepositoryOwner) then
    some .ownerMismatch
  else if optionFails c.repo (fun r => r != claims.sourceRepository) then
    some .repoMismatch
  else if c.oidcIssuer != claims.issuer then some .issuerMismatch
  else none

/-! ## Verification Orchestrator

Modelled from the spec (the orchestrator implementation is not under
`src/`): per-bundle verification through the crypto verifier capability,
digest comparison, predicate-type check and policy check; session-level
aggregation that never aborts early and errors only when zero bundles
verify. -/

/-- A signed statement as extracted by the verifier capability. -/
structure Statement where
  subjectDigest : Digest
  predicateType : String
deriving DecidableEq

/-- The result of the cryptographic verifier capability on one bundle:
either a signature/transparency failure, or the extracted statement and
identity claims. -/
inductive VerifierResult where
  | fail (msg : String)
  | ok (stmt : Statement) (claims : IdentityClaims)
deriving DecidableEq

/-- The distinguishable per-bundle failure causes. -/
inductive BundleError where
  | signatureFailure (msg : String)
  | digestMismatch
  | noMatchingPredicate
  | policyMismatch (e : PolicyError)
deriving DecidableEq

/-- The recognized provenance predicate type. -/
def SLSAPredicateV1 : String := "https://slsa.dev/provenance/v1"

/-- The fixed list of recognized provenance predicate types. -/
def recognizedPredicateTypes : List String := [SLSAPredicateV1]

/-- Modelled from the spec: verify one bundle independently — crypto
verification, subject digest comparison, predicate-type check, then
policy check. -/
def verifyBundle (verifier : Bundle → VerifierResult) (digest : Digest)
    (c : PolicyConstraint) (b : Bundle) : Except BundleError Statement :=
  match verifier b with
  | .fail m => .error (.signatureFailure m)
  | .ok stmt claims =>
    if stmt.subjectDigest = digest then
      if stmt.predicateType ∈ recognizedPredicateTypes then
        match Check claims c with
        | some e => .error (.policyMismatch e)
        | none => .ok stmt
      else .error .noMatchingPredicate
    else .error .digestMismatch

/-- The session-level partition of outcomes. -/
structure VerificationSession where
  succeeded : List Statement
  failed : List BundleError
deriving DecidableEq

/-- The session-level error, raised only when every bundle failed. -/
inductive SessionError where
  | allVerificationsFailed (causes : List BundleError)
deriving DecidableEq

/-- Modelled from the spec: process every input bundle and accumulate
the partition of verified statements and failure causes, in input
order, never aborting early on a per-bundle failure. -/
def collectOutcomes (verifier : Bundle → VerifierResult) (digest : Digest)
    (c : PolicyConstraint) : List Bundle → VerificationSession
  | [] => { succeeded := [], failed := [] }
  | b :: bs =>
    let rest := collectOutcomes verifier digest c bs
    match verifyBundle verifier digest c b with
    | .ok stmt => { succeeded := stmt :: rest.succeeded, failed := rest.failed }
    | .error e => { succeeded := rest.succeeded, failed := e :: rest.failed }

/-- Modelled from the spec: the overall call fails only when zero
bundles verify; otherwise the full partition is returned as success. -/
def Verify (verifier : Bundle → VerifierResult) (digest : Digest)
    (c : PolicyConstraint) (bundles : List Bundle) :
    Except SessionError VerificationSession :=
  let s := collectOutcomes verifier digest c bundles
  if s.succeeded.isEmpty then .error (.allVerificationsFailed s.failed)
  else .ok s

/-! ## Concrete scenario values -/

/-- The GitHub Actions OIDC issuer. -/
def GitHubOIDCIssuer : String := "https://token.actions.githubusercontent.com"

/-- The SAN of the sigstore-js release workflow. -/
def SigstoreSanValue : String :=
  "https://github.com/sigstore/sigstore-js/.github/workflows/release.yml@refs/heads/main"

/-- The anchored SAN pattern for the sigstore organization. -/
def SigstoreSanRegex : String := "^https://github.com/sigstore/"

/-- The artifact digest of the concrete verification scenario. -/
def d0 : Digest := { algorithm := "sha512", hex := "a1b2" }

/-- A digest different from `d0`. -/
def dBad : Digest := { algorithm := "sha512", hex := "ffff" }

/-- Identity claims of the concrete scenario. -/
def claims0 : IdentityClaims :=
  { san := SigstoreSanValue
  , issuer := GitHubOIDCIssuer
  , sourceRepositoryOwner := "sigstore"
  , sourceRepository := "sigstore/sigstore-js" }

/-- A constraint set with only the mandatory issuer. -/
def trivialConstraint : PolicyConstraint :=
  { sanExact := none, sanRegex := none, owner := none, repo := none
  , oidcIssuer := GitHubOIDCIssuer }

/-- The constraint of the concrete policy scenario: SAN pattern plus
owner plus issuer. -/
def sigstoreConstraint : PolicyConstraint :=
  { sanExact := none, sanRegex := some SigstoreSanRegex
  , owner := some ("sigstore"), repo := none
  , oidcIssuer := GitHubOIDCIssuer }

/-- A cleanly verifying statement for `d0`. -/
def stmtGood : Statement := { subjectDigest := d0, predicateType := SLSAPredicateV1 }

/-- A statement whose subject digest does not match `d0`. -/
def stmtBadDigest : Statement := { subjectDigest := dBad, predicateType := SLSAPredicateV1 }

/-- A statement with an unrecognized predicate type. -/
def stmtBadPredicate : Statement :=
  { subjectDigest := d0, predicateType := "some-other-predicate-type" }

/-- Verifier capability of the 5-bundle scenario: bundles `x` and `y`
carry a mismatched digest, the rest verify cleanly. -/
def verifierFive (b : Bundle) : VerifierResult :=
  if b.raw = ['x'] ∨ b.raw = ['y'] then .ok stmtBadDigest claims0
  else .ok stmtGood claims0

/-- The five bundles of the concrete session. -/
def fiveBundles : List Bundle :=
  [{ raw := ['a'] }, { raw := ['x'] }, { raw := ['b'] }, { raw := ['y'] }, { raw := ['c'] }]

/-- A bundle whose statement has an unrecognized predicate type. -/
def bundleBadPred : Bundle := { raw := ['p'] }

/-- A cleanly verifying bundle. -/
def bundleGood : Bundle := { raw := ['g'] }

/-- Verifier capability mixing one bad-predicate bundle with good ones. -/
def verifierMixed (b : Bundle) : VerifierResult :=
  if b.raw = ['p'] then .ok stmtBadPredicate claims0
  else .ok stmtGood claims0

/-! ## Bundle Loader and line-delimited writer

Modelled from the spec (the loader implementation is not under `src/`):
a line-delimited file carries one JSON object per attestation per line;
loading yields one bundle per non-empty line, in file order; file
content is modelled as its character sequence. -/

/-- The line separator of the line-delimited encoding. -/
def newlineChar : Char := '\n'

/-- Modelled from the spec: write fetched attestations as a
line-delimited file, one JSON object (the bundle serialization) per
attestation per line. -/
def writeAttestationLines (atts : List Attestation) : List Char :=
  [newlineChar].intercalate (atts.map (fun a => a.bundle.raw))

/-- Modelled from the spec: load bundles from file content — one bundle
per non-empty line; a single-object file is one bundle. -/
def loadBundles (content : List Char) : List Bundle :=
  ((content.splitOn newlineChar).filter (fun l => ! l.isEmpty)).map
    (fun l => { raw := l })

/-- Modelled from the spec and the download tests: the output file is
named by the subject's `algorithm:hex` digest with the `.jsonl`
extension, under the output path when one is set. -/
def createJSONLinesFilePath (digestWithAlg outputPath : String) : String :=
  if outputPath = "" then digestWithAlg ++ ".jsonl"
  else outputPath ++ "/" ++ digestWithAlg ++ ".jsonl"

/-! ## Download path

Modelled from the spec and the download tests (the implementation is
not under `src/`): digest the artifact, fetch its attestations, and
write the line-delimited file; zero fetched attestations is a
successful no-op that writes nothing. The returned value carries the
written file (path and content) when one is produced. -/

/-- Modelled from the spec: run the download path over the digest and
fetch capability results. -/
def RunDownload (digestResult : Except String String)
    (fetchResult : Except String (List Attestation)) (outputPath : String) :
    Except String (Option (String × List Char)) :=
  match digestResult with
  | .error e => .error ("failed to digest artifact: " ++ e)
  | .ok digestWithAlg =>
    match fetchResult with
    | .error e => .error ("failed to fetch attestations: " ++ e)
    | .ok atts =>
      if atts.isEmpty then .ok none
      else .ok (some (createJSONLinesFilePath digestWithAlg outputPath,
          writeAttestationLines atts))

/-! ## Trust Root Manager — TUF root verification

Embedded from `src/pkg/cmd/attestation/tufrootverify/tuf-root-verify.go`.
The file system and the TUF client constructor are external capabilities
passed explicitly. -/

/-- TUF client options: the fields `verifyTUFRoot` sets. -/
structure TUFOptions where
  Root : List Nat
  RepositoryBaseURL : String
  CacheValidity : Nat
deriving DecidableEq

/-- Modelled from the spec: the default GitHub TUF options for the
remote-mirror path, with a positive cache validity window (caching
enabled); the local-override path overwrites these fields. -/
def GitHubTUFOptions : Except String TUFOptions :=
  .ok { Root := [], RepositoryBaseURL := "https://tuf-repo.github.com"
      , CacheValidity := 12 }

/-- The options `verifyTUFRoot` hands to the TUF client constructor:
read the local root file, then overwrite the root material, the mirror
URL, and force the cache validity to zero. -/
def tufOptionsForRoot (readFile : String → Except String (List Nat))
    (mirror root : String) : Except String TUFOptions :=
  match readFile root with
  | .error e => .error ("failed to read root file " ++ root ++ ": " ++ e)
  | .ok rb =>
    match GitHubTUFOptions with
    | .error e => .error e
    | .ok base =>
      .ok { base with Root := rb, RepositoryBaseURL := mirror, CacheValidity := 0 }

/-- `verifyTUFRoot` from the source: build the options from the local
root override and call the TUF client constructor. -/
def verifyTUFRoot (readFile : String → Except String (List Nat))
    (tufNew : TUFOptions → Except String Unit) (mirror root : String) :
    Except String Unit :=
  match tufOptionsForRoot readFile mirror root with
  | .error e => .error e
  | .ok opts =>
    match tufNew opts with
    | .error e => .error ("failed to create TUF client: " ++ e)
    | .ok _ => .ok ()

/-! ## Inspect flag validation

Embedded from `src/unnamed/part_002` (`Options.AreFlagsValid`); the
digest-algorithm allow-list itself is modelled from the spec. -/

/-- Modelled from the spec: the fixed allow-list of supported digest
algorithms. -/
def supportedDigestAlgorithms : List String := ["sha256", "sha512"]

/-- Is the algorithm in the fixed allow-list? -/
def IsValidDigestAlgorithm (alg : String) : Bool :=
  supportedDigestAlgorithms.contains alg

/-- The inspect command options relevant to flag validation. -/
structure InspectOptions where
  ArtifactPath : String
  BundlePath : String
  DigestAlgorithm : String
deriving DecidableEq

/-- `Options.AreFlagsValid` from the source: bundle path must be set,
the digest algorithm must be non-empty and in the allow-list. -/
def AreFlagsValid (opts : InspectOptions) : Option String :=
  if opts.BundlePath = "" then some ("bundle must be provided")
  else if opts.DigestAlgorithm = "" then some ("digest-alg cannot be empty")
  else if IsValidDigestAlgorithm opts.DigestAlgorithm = false then
    some ("invalid digest algorithm provided in digest-alg")
  else none

/-! ## Concrete witness values -/

/-- A concrete attestation used to instantiate the fetch theorems. -/
def attA : Attestation := { bundle := { raw := ['j'] } }

/-- A concrete attestation store serving five records over two pages. -/
def storeA (_url : String) : Except String (List (List Attestation)) :=
  .ok [[attA, attA], [attA, attA, attA]]

/-- A concrete single bundle used by the loader round-trip witness. -/
def bundleK : Bundle := { raw := ['k'] }

/-- A concrete file-read capability returning fixed root bytes. -/
def readFileW (_path : String) : Except String (List Nat) := .ok [1, 2, 3]

/-- A concrete always-succeeding TUF client constructor. -/
def tufNewW (_opts : TUFOptions) : Except String Unit := .ok ()

/-- The options the TUF witness expects to be built. -/
def tufOptsW : TUFOptions :=
  { Root := [1, 2, 3], RepositoryBaseURL := "https://tuf.example"
  , CacheValidity := 0 }

end GhAttestation

namespace GhAttestation

theorem effectiveLimit_pos (limit : Nat) : 0 < effectiveLimit limit := by
  unfold effectiveLimit DefaultLimit
  split <;> omega

theorem paginateLoop_take (rest : List (List Attestation)) (acc : List Attestation)
    (limit : Nat) :
    (paginateLoop acc rest limit).take limit = (acc ++ rest.flatten).take limit := by
  induction rest generalizing acc with
  | nil => simp [paginateLoop]
  | cons q rs ih =>
    simp only [paginateLoop]
    by_cases h : acc.length < limit
    · simp only [h, if_true]
      rw [ih (acc ++ q)]
      simp [List.append_assoc]
    · simp only [h, if_false]
      rw [List.take_append_of_le_length (by omega)]

theorem paginate_take (pages : List (List Attestation)) (limit : Nat) :
    (paginate pages limit).take limit = pages.flatten.take limit := by
  cases pages with
  | nil => simp [paginate]
  | cons p rest =>
    simp only [paginate, List.flatten_cons]
    exact paginateLoop_take rest p limit

theorem paginate_eq_nil_iff (pages : List (List Attestation)) (limit : Nat)
    (hl : 0 < limit) : paginate pages limit = [] ↔ pages.flatten = [] := by
  constructor
  · intro h
    have := paginate_take pages limit
    rw [h] at this
    simp only [List.take_nil] at this
    rcases List.take_eq_nil_iff.mp this.symm with h' | h'
    · omega
    · exact h'
  · intro h
    have := paginate_take pages limit
    rw [h] at this
    simp only [List.take_nil] at this
    rcases List.take_eq_nil_iff.mp this with h' | h'
    · omega
    · exact h'

theorem getByDigest_ok_length (pages : List (List Attestation)) (limit : Nat)
    (res : List Attestation) (h : getByDigest (.ok pages) limit = .ok res) :
    res.length = min (effectiveLimit limit) pages.flatten.length := by
  simp only [getByDigest] at h
  split at h
  · cases h
  · injection h with h'
    subst h'
    rw [paginate_take, List.length_take]

/-- C3: pagination in the attestation fetcher is lossless and
order-preserving — for every store response and limit, the paginated
fetch equals a single unpaginated fetch truncated to the limit. -/
theorem fetch_pagination_lossless (store : Except String (List (List Attestation)))
    (limit : Nat) : getByDigest store limit = unpaginatedFetch store limit := by
  cases store with
  | error m => rfl
  | ok pages =>
    simp only [getByDigest, unpaginatedFetch]
    have hpos := effectiveLimit_pos limit
    have hiff := paginate_eq_nil_iff pages (effectiveLimit limit) hpos
    by_cases h : pages.flatten = []
    · have hp : paginate pages (effectiveLimit limit) = [] := hiff.mpr h
      simp [hp, h]
    · have hp : paginate pages (effectiveLimit limit) ≠ [] := fun hh => h (hiff.mp hh)
      rw [if_neg (by simpa [List.isEmpty_iff] using hp),
        if_neg (by simpa [List.isEmpty_iff] using h)]
      rw [paginate_take]

/-- C2: for every digest and limit, `GetByRepoAndDigest` and
`GetByOwnerAndDigest` return exactly `min(effectiveLimit, totalAvailable)`
records, where the effective limit is the caller's limit when positive and
the documented default when the limit is unset (zero). -/
theorem attestation_fetch_respects_limit
    (store : String → Except String (List (List Attestation)))
    (repo owner digestWithAlg : String) (limit : Nat) (res res' : List Attestation)
    (hr : GetByRepoAndDigest store repo digestWithAlg limit = .ok res)
    (ho : GetByOwnerAndDigest store owner digestWithAlg limit = .ok res') :
    res.length = min (effectiveLimit limit)
        (totalAvailable store (BuildRepoAndDigestURL repo digestWithAlg)) ∧
    res'.length = min (effectiveLimit limit)
        (totalAvailable store (BuildOwnerAndDigestURL owner digestWithAlg)) ∧
    (limit ≠ 0 → effectiveLimit limit = limit) ∧
    (limit = 0 → effectiveLimit limit = DefaultLimit) := by
  refine ⟨?_, ?_, ?_, ?_⟩
  · unfold GetByRepoAndDigest at hr
    unfold totalAvailable
    cases hu : store (BuildRepoAndDigestURL repo digestWithAlg) with
    | error m => rw [hu] at hr; simp [getByDigest] at hr
    | ok pages => rw [hu] at hr; exact getByDigest_ok_length pages limit res hr
  · unfold GetByOwnerAndDigest at ho
    unfold totalAvailable
    cases hu : store (BuildOwnerAndDigestURL owner digestWithAlg) with
    | error m => rw [hu] at ho; simp [getByDigest] at ho
    | ok pages => rw [hu] at ho; exact getByDigest_ok_length pages limit res' ho
  · intro hz; simp [effectiveLimit, hz]
  · intro hz; simp [effectiveLimit, hz]

/-- Witness for C2 at a concrete store of five records and limit 3. -/
theorem attestation_fetch_respects_limit_witness :
    ([attA, attA, attA] : List Attestation).length
        = min (effectiveLimit 3)
            (totalAvailable storeA (BuildRepoAndDigestURL ("github/example") ("sha256:12313213"))) ∧
    effectiveLimit 3 = 3 := by
  have h := attestation_fetch_respects_limit storeA ("github/example") ("github")
    ("sha256:12313213") 3 [attA, attA, attA] [attA, attA, attA] (by rfl) (by rfl)
  exact ⟨h.1, h.2.2.1 (by omega)⟩

/-- C4: a fetch whose responses contain zero records fails with the
distinguished no-attestations error and never returns an empty list as
success, while a transport failure propagates as a distinct generic
error. -/
theorem fetch_no_attestations_distinguished
    (pages : List (List Attestation)) (limit : Nat) (m : String)
    (res : List Attestation) :
    (pages.flatten = [] → getByDigest (.ok pages) limit = .error .noAttestations) ∧
    (getByDigest (.ok pages) limit = .ok res → res ≠ []) ∧
    getByDigest (.error m) limit = .error (.transport m) ∧
    FetchError.transport m ≠ FetchError.noAttestations := by
  refine ⟨?_, ?_, rfl, by simp⟩
  · intro h
    have hp : paginate pages (effectiveLimit limit) = [] :=
      (paginate_eq_nil_iff pages (effectiveLimit limit) (effectiveLimit_pos limit)).mpr h
    simp [getByDigest, hp]
  · intro h hne
    have hlen := getByDigest_ok_length pages limit res h
    subst hne
    simp only [getByDigest] at h
    split at h
    · cases h
    · injection h with h'
      have hpos := effectiveLimit_pos limit
      have : pages.flatten.length = 0 := by
        simp only [List.length_nil] at hlen
        omega
      have hfe : pages.flatten = [] := List.length_eq_zero.mp this
      have hp : paginate pages (effectiveLimit limit) = [] :=
        (paginate_eq_nil_iff pages (effectiveLimit limit) hpos).mpr hfe
      rename_i hcond
      exact hcond (by simp [hp])

/-- Witness for C4: empty store and transport failure at concrete inputs. -/
theorem fetch_no_attestations_distinguished_witness :
    getByDigest (.ok ([[]] : List (List Attestation))) 30 = .error .noAttestations ∧
    ([attA] : List Attestation) ≠ [] ∧
    getByDigest (.error ("boom")) 30 = .error (.transport ("boom")) ∧
    FetchError.transport ("boom") ≠ FetchError.noAttestations := by
  have h1 := fetch_no_attestations_distinguished [[]] 30 ("boom") [attA]
  have h2 := fetch_no_attestations_distinguished [[attA]] 30 ("boom") [attA]
  exact ⟨h1.1 (by rfl), h2.2.1 (by rfl), h1.2.2.1, h1.2.2.2⟩

theorem collectOutcomes_length (verifier : Bundle → VerifierResult) (digest : Digest)
    (c : PolicyConstraint) (bundles : List Bundle) :
    (collectOutcomes verifier digest c bundles).succeeded.length +
      (collectOutcomes verifier digest c bundles).failed.length = bundles.length := by
  induction bundles with
  | nil => rfl
  | cons b bs ih =>
    cases h : verifyBundle verifier digest c b with
    | error e =>
      simp only [collectOutcomes, h, List.length_cons]
      omega
    | ok stmt =>
      simp only [collectOutcomes, h, List.length_cons]
      omega

/-- C1: the orchestrator processes every input bundle (the partition
sizes sum to the input count), succeeds with the full partition whenever
at least one bundle verifies, errors only when zero verify, and on the
concrete 5-bundle session with 2 mismatched digests returns 3 succeeded,
2 failed and no error. -/
theorem verify_session_partition (verifier : Bundle → VerifierResult)
    (digest : Digest) (c : PolicyConstraint) (bundles : List Bundle) :
    (collectOutcomes verifier digest c bundles).succeeded.length +
      (collectOutcomes verifier digest c bundles).failed.length = bundles.length ∧
    ((collectOutcomes verifier digest c bundles).succeeded ≠ [] →
      Verify verifier digest c bundles = .ok (collectOutcomes verifier digest c bundles)) ∧
    ((collectOutcomes verifier digest c bundles).succeeded = [] →
      Verify verifier digest c bundles =
        .error (.allVerificationsFailed (collectOutcomes verifier digest c bundles).failed)) ∧
    Verify verifierFive d0 trivialConstraint fiveBundles =
      .ok { succeeded := [stmtGood, stmtGood, stmtGood]
          , failed := [.digestMismatch, .digestMismatch] } := by
  refine ⟨collectOutcomes_length verifier digest c bundles, ?_, ?_, by rfl⟩
  · intro hne
    unfold Verify
    rw [if_neg (by simpa [List.isEmpty_iff] using hne)]
  · intro he
    unfold Verify
    rw [if_pos (by simpa [List.isEmpty_iff] using he)]

/-- Witness for C1 at the concrete 5-bundle session. -/
theorem verify_session_partition_witness :
    (collectOutcomes verifierFive d0 trivialConstraint fiveBundles).succeeded.length +
      (collectOutcomes verifierFive d0 trivialConstraint fiveBundles).failed.length = 5 ∧
    Verify verifierFive d0 trivialConstraint fiveBundles =
      .ok (collectOutcomes verifierFive d0 trivialConstraint fiveBundles) ∧
    Verify verifierFive d0 trivialConstraint fiveBundles =
      .ok { succeeded := [stmtGood, stmtGood, stmtGood]
          , failed := [.digestMismatch, .digestMismatch] } := by
  have h := verify_session_partition verifierFive d0 trivialConstraint fiveBundles
  exact ⟨h.1, h.2.1 (by decide), h.2.2.2⟩

/-- C5: a bundle whose signed statement carries an unrecognized
predicate type fails with the no-matching-predicate error, and such a
failure is not fatal to the session: in a concrete session with one
bad-predicate bundle and one clean bundle, the clean bundle still
verifies and the call succeeds. -/
theorem predicate_mismatch_failed_not_fatal (verifier : Bundle → VerifierResult)
    (digest : Digest) (c : PolicyConstraint) (b : Bundle)
    (stmt : Statement) (claims : IdentityClaims)
    (hv : verifier b = .ok stmt claims)
    (hd : stmt.subjectDigest = digest)
    (hp : stmt.predicateType ∉ recognizedPredicateTypes) :
    verifyBundle verifier digest c b = .error .noMatchingPredicate ∧
    Verify verifierMixed d0 trivialConstraint [bundleBadPred, bundleGood] =
      .ok { succeeded := [stmtGood], failed := [.noMatchingPredicate] } := by
  constructor
  · unfold verifyBundle
    rw [hv]
    dsimp only
    rw [if_pos hd, if_neg hp]
  · rfl

/-- Witness for C5 at the concrete bad-predicate bundle. -/
theorem predicate_mismatch_failed_not_fatal_witness :
    verifyBundle verifierMixed d0 trivialConstraint bundleBadPred =
      .error .noMatchingPredicate ∧
    Verify verifierMixed d0 trivialConstraint [bundleBadPred, bundleGood] =
      .ok { succeeded := [stmtGood], failed := [.noMatchingPredicate] } :=
  predicate_mismatch_failed_not_fatal verifierMixed d0 trivialConstraint
    bundleBadPred stmtBadPredicate claims0 (by rfl) (by rfl) (by decide)

theorem check_none_implies_issuer (claims : IdentityClaims) (c : PolicyConstraint)
    (hc : Check claims c = none) : claims.issuer = c.oidcIssuer := by
  unfold Check at hc
  by_cases h1 : optionFails c.sanExact (fun s => s != claims.san) = true
  · rw [if_pos h1] at hc; cases hc
  · rw [if_neg h1] at hc
    by_cases h2 : optionFails c.sanRegex (fun p => ! matchesPattern p claims.san) = true
    · rw [if_pos h2] at hc; cases hc
    · rw [if_neg h2] at hc
      by_cases h3 : optionFails c.owner (fun o => o != claims.sourceRepositoryOwner) = true
      · rw [if_pos h3] at hc; cases hc
      · rw [if_neg h3] at hc
        by_cases h4 : optionFails c.repo (fun r => r != claims.sourceRepository) = true
        · rw [if_pos h4] at hc; cases hc
        · rw [if_neg h4] at hc
          by_cases h5 : (c.oidcIssuer != claims.issuer) = true
          · rw [if_pos h5] at hc; cases hc
          · have : c.oidcIssuer = claims.issuer := by
              simpa [bne_iff_ne] using h5
            exact this.symm

/-- C6: the policy check is conjunctive with a mandatory exact issuer
match — any claim whose issuer differs from the constraint's issuer
fails no matter which other constraints are set or satisfied — and the
concrete sigstore claim satisfies the anchored SAN pattern constraint
and passes when all other constraints are satisfied. -/
theorem policy_issuer_mandatory_san_regex (claims : IdentityClaims)
    (c : PolicyConstraint) (h : claims.issuer ≠ c.oidcIssuer) :
    Check claims c ≠ none ∧
    Check claims0 sigstoreConstraint = none := by
  constructor
  · intro hc
    exact h (check_none_implies_issuer claims c hc)
  · rfl

/-- Witness for C6: the GitHub-issued claim always fails against a
Google-issuer constraint, and passes the sigstore constraint. -/
theorem policy_issuer_mandatory_san_regex_witness :
    Check claims0
      { sigstoreConstraint with oidcIssuer := "https://accounts.google.com" } ≠ none ∧
    Check claims0 sigstoreConstraint = none := by
  have h := policy_issuer_mandatory_san_regex claims0
    { sigstoreConstraint with oidcIssuer := "https://accounts.google.com" } (by decide)
  exact ⟨h.1, h.2⟩

/-- C7: bundle persistence and loading round-trip — a line-delimited
file written with N attestations (one JSON object per line) loads to
exactly the N bundles in file order, a single-object file loads to
exactly one bundle, and the file written by the retrieval path is named
by the subject's `algorithm:hex` digest. -/
theorem bundle_store_load_roundtrip (atts : List Attestation) (b : Bundle)
    (digestWithAlg dir : String)
    (h : ∀ a ∈ atts, a.bundle.raw ≠ [] ∧ newlineChar ∉ a.bundle.raw)
    (hne : atts ≠ [])
    (hb : b.raw ≠ [] ∧ newlineChar ∉ b.raw)
    (hdir : dir ≠ "") :
    loadBundles (writeAttestationLines atts) = atts.map (fun a => a.bundle) ∧
    (loadBundles (writeAttestationLines atts)).length = atts.length ∧
    loadBundles b.raw = [b] ∧
    createJSONLinesFilePath digestWithAlg dir = dir ++ "/" ++ digestWithAlg ++ ".jsonl" := by
  have hsplit : (writeAttestationLines atts).splitOn newlineChar
      = atts.map (fun a => a.bundle.raw) := by
    unfold writeAttestationLines
    refine List.splitOn_intercalate (atts.map (fun a => a.bundle.raw)) newlineChar ?_ ?_
    · intro l hl
      rcases List.mem_map.mp hl with ⟨a, ha, rfl⟩
      exact (h a ha).2
    · simpa using hne
  have hmain : loadBundles (writeAttestationLines atts) = atts.map (fun a => a.bundle) := by
    unfold loadBundles
    rw [hsplit]
    have hall : ∀ l ∈ atts.map (fun a => a.bundle.raw), (! l.isEmpty) = true := by
      intro l hl
      rcases List.mem_map.mp hl with ⟨a, ha, rfl⟩
      simp [List.isEmpty_iff, (h a ha).1]
    rw [List.filter_eq_self.mpr hall, List.map_map]
    rfl
  have hsingle : loadBundles b.raw = [b] := by
    have h1 : [newlineChar].intercalate [b.raw] = b.raw := by
      simp [List.intercalate]
    have h2 := List.splitOn_intercalate [b.raw] newlineChar
      (by intro l hl; simp only [List.mem_singleton] at hl; subst hl; exact hb.2)
      (by simp)
    rw [h1] at h2
    unfold loadBundles
    rw [h2]
    have : (! b.raw.isEmpty) = true := by simp [List.isEmpty_iff, hb.1]
    simp [List.filter, this]
  refine ⟨hmain, ?_, hsingle, ?_⟩
  · rw [hmain]; simp
  · unfold createJSONLinesFilePath
    rw [if_neg hdir]

/-- Witness for C7 at a concrete two-attestation file and a concrete
single-object file. -/
theorem bundle_store_load_roundtrip_witness :
    loadBundles (writeAttestationLines [attA, attA]) = [attA.bundle, attA.bundle] ∧
    (loadBundles (writeAttestationLines [attA, attA])).length = 2 ∧
    loadBundles bundleK.raw = [bundleK] ∧
    createJSONLinesFilePath ("sha512:a1b2") ("out") = "out/sha512:a1b2.jsonl" := by
  have h := bundle_store_load_roundtrip [attA, attA] bundleK ("sha512:a1b2") ("out")
    (by decide) (by decide) (by decide) (by decide)
  exact ⟨h.1, h.2.1, h.2.2.1, h.2.2.2⟩

/-- C8: when a local trust-root override file is supplied, the options
handed to the TUF client constructor carry exactly the file's bytes as
the root, the supplied mirror, and a cache validity forced to zero, so
no cached root state can be reused. -/
theorem tuf_root_override_disables_cache
    (readFile : String → Except String (List Nat))
    (tufNew : TUFOptions → Except String Unit) (mirror root : String)
    (rb : List Nat) (opts : TUFOptions)
    (hread : readFile root = .ok rb)
    (hopts : tufOptionsForRoot readFile mirror root = .ok opts) :
    opts.CacheValidity = 0 ∧ opts.Root = rb ∧ opts.RepositoryBaseURL = mirror ∧
    verifyTUFRoot readFile tufNew mirror root =
      (match tufNew opts with
       | .error e => .error ("failed to create TUF client: " ++ e)
       | .ok _ => .ok ()) := by
  have hopts' : opts = { Root := rb, RepositoryBaseURL := mirror, CacheValidity := 0 } := by
    unfold tufOptionsForRoot at hopts
    rw [hread] at hopts
    simp only [GitHubTUFOptions] at hopts
    injection hopts with h'
    exact h'.symm
  subst hopts'
  refine ⟨rfl, rfl, rfl, ?_⟩
  unfold verifyTUFRoot
  rw [hopts]

/-- Witness for C8 at a concrete file system and TUF constructor. -/
theorem tuf_root_override_disables_cache_witness :
    tufOptsW.CacheValidity = 0 ∧ tufOptsW.Root = [1, 2, 3] ∧
    tufOptsW.RepositoryBaseURL = "https://tuf.example" ∧
    verifyTUFRoot readFileW tufNewW ("https://tuf.example") ("1.root.json") =
      (match tufNewW tufOptsW with
       | .error e => .error ("failed to create TUF client: " ++ e)
       | .ok _ => .ok ()) :=
  tuf_root_override_disables_cache readFileW tufNewW ("https://tuf.example")
    ("1.root.json") [1, 2, 3] tufOptsW (by rfl) (by rfl)

/-- C9: inspect flag validation accepts exactly when the bundle path is
set and the digest algorithm is non-empty and on the fixed allow-list;
it errors in each of the three failing cases. -/
theorem inspect_flags_valid_iff (opts : InspectOptions) :
    AreFlagsValid opts = none ↔
      (opts.BundlePath ≠ "" ∧ opts.DigestAlgorithm ≠ "" ∧
        IsValidDigestAlgorithm opts.DigestAlgorithm = true) := by
  unfold AreFlagsValid
  by_cases h1 : opts.BundlePath = ""
  · simp [h1]
  · by_cases h2 : opts.DigestAlgorithm = ""
    · simp [h1, h2]
    · by_cases h3 : IsValidDigestAlgorithm opts.DigestAlgorithm = false
      · simp [h1, h2, h3]
      · have h3' : IsValidDigestAlgorithm opts.DigestAlgorithm = true := by
          cases hv : IsValidDigestAlgorithm opts.DigestAlgorithm
          · exact absurd hv h3
          · rfl
        simp [h1, h2, h3, h3']

/-- Witness for C9: a valid option set passes, an unsupported algorithm
fails. -/
theorem inspect_flags_valid_iff_witness :
    AreFlagsValid { ArtifactPath := "a.tgz", BundlePath := "b.json"
                  , DigestAlgorithm := "sha512" } = none ∧
    AreFlagsValid { ArtifactPath := "a.tgz", BundlePath := "b.json"
                  , DigestAlgorithm := "md5" } ≠ none := by
  constructor
  · exact (inspect_flags_valid_iff
      { ArtifactPath := "a.tgz", BundlePath := "b.json", DigestAlgorithm := "sha512" }).mpr
      (by decide)
  · intro hc
    have h := (inspect_flags_valid_iff
      { ArtifactPath := "a.tgz", BundlePath := "b.json", DigestAlgorithm := "md5" }).mp hc
    exact absurd h.2.2 (by decide)

/-- C10: when the attestation fetch of the download path returns an
empty result with no error, the download returns success and writes no
output file. -/
theorem download_zero_attestations_noop (digestWithAlg outputPath : String) :
    RunDownload (.ok digestWithAlg) (.ok []) outputPath = .ok none := by
  rfl

/-- Witness for C10 at concrete inputs. -/
theorem download_zero_attestations_noop_witness :
    RunDownload (.ok ("sha512:a1b2")) (.ok []) ("out") = .ok none :=
  download_zero_attestations_noop ("sha512:a1b2") ("out")

end GhAttestation
